import Mathlib

/-!
Shallow embedding of `hyundai_kia_connect_api/Vehicle.py`: the `Vehicle`
dataclass with its property getters and setters (value+unit pairs, the
`last_updated_at` timestamp-correction setter, the `location` and `geocode`
tuple accessors, and the three sort-on-assignment collection setters),
together with the auxiliary trip/stats dataclasses.

Python dynamic values are modelled by `PyVal` (absent / string / number,
numbers as exact rationals).  Timezone-aware datetimes are modelled by
`ADateTime`, a wall-clock reading in minutes plus a UTC offset in minutes;
Python compares aware datetimes by UTC instant (`wall - offset`), and adding
a timedelta moves only the wall clock.

The helpers `get_float` and `get_safe_local_datetime` live in the
repository module `utils.py`, which is not part of the provided source;
they are modelled from the spec (tolerant float parser, tolerant
local-aware datetime parser degrading to empty).
-/

/-- Dynamic Python value: absent (`None`), a string, or a number
(floats modelled as exact rationals). -/
inductive PyVal where
  | none
  | str (s : String)
  | num (q : ℚ)
deriving DecidableEq, Repr

/-- Timezone-aware datetime: wall-clock reading and UTC offset, both in
minutes.  The UTC instant it denotes is `wall - offset`. -/
structure ADateTime where
  wall : Int
  offset : Int
deriving DecidableEq, Repr

namespace ADateTime

/-- UTC instant denoted by an aware datetime; Python compares aware
datetimes by this value. -/
def instant (d : ADateTime) : Int := d.wall - d.offset

/-- Python `d.utcoffset()`, as minutes. -/
def utcoffset (d : ADateTime) : Int := d.offset

/-- Python `d + timedelta(minutes := m)`: the wall clock moves, the tzinfo
(and hence the offset) is unchanged. -/
def addMinutes (d : ADateTime) (m : Int) : ADateTime := { d with wall := d.wall + m }

/-- Python `newest_updated_at + utcoffset` from the `last_updated_at`
setter: re-apply the own UTC offset of the datetime once. -/
def corrected (d : ADateTime) : ADateTime := d.addMinutes d.utcoffset

end ADateTime

/-- Raw input handed to the tolerant datetime parser: missing (`None`),
an unparseable string, or a value that parses to an aware datetime. -/
inductive DtInput where
  | missing
  | unparseable (s : String)
  | parsed (d : ADateTime)
deriving DecidableEq, Repr

/-- Modelled from the spec: `get_safe_local_datetime` from the repository
module `utils.py` (not in the provided source) is a tolerant local-aware
datetime parser producing an empty result on unparseable or missing
input, and an aware datetime otherwise. -/
def get_safe_local_datetime : DtInput → Option ADateTime
  | .parsed d => some d
  | .missing => Option.none
  | .unparseable _ => Option.none

/-- Value of a nonempty list of decimal digit characters, `none` if the
list is empty or holds a non-digit. -/
def digitsVal (cs : List Char) : Option Nat :=
  if cs.isEmpty then Option.none
  else cs.foldl
    (fun acc c =>
      match acc with
      | some n => if c.isDigit then some (n * 10 + (c.toNat - 48)) else Option.none
      | Option.none => Option.none)
    (some 0)

/-- Split a character list at every dot, mirroring a string split. -/
def splitAtDots (cs : List Char) : List (List Char) :=
  match cs with
  | [] => [[]]
  | c :: rest =>
    let r := splitAtDots rest
    if c = '.' then [] :: r
    else
      match r with
      | h :: t => (c :: h) :: t
      | [] => [[c]]

/-- Decimal string to exact rational: optional leading minus sign, integer
digits, optional fractional digits after one dot.  The rational is built
with `mkRat` over integer arithmetic. -/
def parseDecimal (s : String) : Option ℚ :=
  let (neg, body) :=
    match s.toList with
    | '-' :: rest => (true, rest)
    | cs => (false, cs)
  let sgn : Int → Int := fun n => if neg then -n else n
  match splitAtDots body with
  | [i] => (digitsVal i).map (fun n => mkRat (sgn n) 1)
  | [i, f] =>
    match digitsVal i, digitsVal f with
    | some n, some m => some (mkRat (sgn (n * 10 ^ f.length + m)) (10 ^ f.length))
    | _, _ => Option.none
  | _ => Option.none

/-- Modelled from the spec: `get_float` from the repository module
`utils.py` (not in the provided source) parses as float, tolerant of
already-numeric or string input, degrading to an empty result otherwise. -/
def get_float : PyVal → PyVal
  | .num q => .num q
  | .str s =>
    match parseDecimal s with
    | some q => .num q
    | Option.none => .none
  | .none => .none

/-- Trip period type enum. -/
inductive TripPeriodType where
  | MONTH
  | DAY
deriving DecidableEq, Repr

/-- Trip day list item for API responses. -/
structure TripDayListItem where
  date : ADateTime
  count : Int
deriving DecidableEq, Repr

/-- Trip Info.  The sort key `hhmmss` is annotated `str` in the source
(its Python default `None` would make the sort in the `day_trip_info`
setter raise, so it is modelled as a string). -/
structure TripInfo where
  hhmmss : String
  drive_time : Option Int := Option.none
  idle_time : Option Int := Option.none
  distance : Option ℚ := Option.none
  avg_speed : Option ℚ := Option.none
  max_speed : Option Int := Option.none
  trip_day_list : Option (List TripDayListItem) := Option.none
  trip_period_type : Option TripPeriodType := Option.none
  month_trip_day_cnt : Option Int := Option.none
deriving DecidableEq, Repr

/-- Day trip counts.  The sort key `yyyymmdd` is annotated `str` in the
source and is modelled as a string. -/
structure DayTripCounts where
  yyyymmdd : String
  trip_count : Option Int := Option.none
deriving DecidableEq, Repr

/-- Month Trip Info. -/
structure MonthTripInfo where
  yyyymm : Option String := Option.none
  summary : Option TripInfo := Option.none
  day_list : List DayTripCounts := []
deriving DecidableEq, Repr

/-- Day Trip Info. -/
structure DayTripInfo where
  yyyymmdd : Option String := Option.none
  summary : Option TripInfo := Option.none
  trip_list : List TripInfo := []
deriving DecidableEq, Repr

/-- Daily driving stats.  The sort key `date` is a datetime in the source
(its Python default `None` would make the sort in the `daily_stats`
setter raise, so it is modelled as an aware datetime). -/
structure DailyDrivingStats where
  date : ADateTime
  total_consumed : Option Int := Option.none
  engine_consumption : Option Int := Option.none
  climate_consumption : Option Int := Option.none
  onboard_electronics_consumption : Option Int := Option.none
  battery_care_consumption : Option Int := Option.none
  regenerated_energy : Option Int := Option.none
  distance : Option ℚ := Option.none
  distance_unit : String := "km"
deriving DecidableEq, Repr

/-- The Vehicle dataclass.  Field order and names follow the source;
plain dataclass fields are inert storage, the underscore-prefixed fields
back the properties defined below.  Python `None` defaults become `none`
(or `PyVal.none` for dynamically typed slots); floats are rationals and
datetimes are `ADateTime`. -/
structure Vehicle where
  id : Option String := Option.none
  name : Option String := Option.none
  model : Option String := Option.none
  registration_date : Option String := Option.none
  year : Option Int := Option.none
  VIN : Option String := Option.none
  key : Option String := Option.none
  ccu_ccs2_protocol_support : Option Int := Option.none
  generation : Option Int := Option.none
  enabled : Bool := true
  _total_driving_range : PyVal := .none
  _total_driving_range_value : PyVal := .none
  _total_driving_range_unit : PyVal := .none
  _odometer : PyVal := .none
  _odometer_value : PyVal := .none
  _odometer_unit : PyVal := .none
  _geocode_address : PyVal := .none
  _geocode_name : PyVal := .none
  car_battery_percentage : Option Int := Option.none
  engine_is_running : Option Bool := Option.none
  _last_updated_at : Option ADateTime := Option.none
  timezone : Int := 0
  dtc_count : Option Int := Option.none
  dtc_descriptions : Option (List (String × String)) := Option.none
  smart_key_battery_warning_is_on : Option Bool := Option.none
  washer_fluid_warning_is_on : Option Bool := Option.none
  brake_fluid_warning_is_on : Option Bool := Option.none
  _air_temperature : PyVal := .none
  _air_temperature_value : PyVal := .none
  _air_temperature_unit : PyVal := .none
  air_control_is_on : Option Bool := Option.none
  defrost_is_on : Option Bool := Option.none
  steering_wheel_heater_is_on : Option Bool := Option.none
  back_window_heater_is_on : Option Bool := Option.none
  side_mirror_heater_is_on : Option Bool := Option.none
  front_left_seat_status : Option String := Option.none
  front_right_seat_status : Option String := Option.none
  rear_left_seat_status : Option String := Option.none
  rear_right_seat_status : Option String := Option.none
  is_locked : Option Bool := Option.none
  front_left_door_is_locked : Option Bool := Option.none
  front_right_door_is_locked : Option Bool := Option.none
  back_left_door_is_locked : Option Bool := Option.none
  back_right_door_is_locked : Option Bool := Option.none
  front_left_door_is_open : Option Bool := Option.none
  front_right_door_is_open : Option Bool := Option.none
  back_left_door_is_open : Option Bool := Option.none
  back_right_door_is_open : Option Bool := Option.none
  trunk_is_open : Option Bool := Option.none
  hood_is_open : Option Bool := Option.none
  front_left_window_is_open : Option Bool := Option.none
  front_right_window_is_open : Option Bool := Option.none
  back_left_window_is_open : Option Bool := Option.none
  back_right_window_is_open : Option Bool := Option.none
  sunroof_is_open : Option Bool := Option.none
  tire_pressure_all_warning_is_on : Option Bool := Option.none
  tire_pressure_rear_left_warning_is_on : Option Bool := Option.none
  tire_pressure_front_left_warning_is_on : Option Bool := Option.none
  tire_pressure_front_right_warning_is_on : Option Bool := Option.none
  tire_pressure_rear_right_warning_is_on : Option Bool := Option.none
  _next_service_distance : PyVal := .none
  _next_service_distance_value : PyVal := .none
  _next_service_distance_unit : PyVal := .none
  _last_service_distance : PyVal := .none
  _last_service_distance_value : PyVal := .none
  _last_service_distance_unit : PyVal := .none
  _location_latitude : PyVal := .none
  _location_longitude : PyVal := .none
  _location_last_set_time : Option ADateTime := Option.none
  ev_charge_port_door_is_open : Option Bool := Option.none
  ev_charging_power : Option ℚ := Option.none
  ev_charge_limits_dc : Option Int := Option.none
  ev_charge_limits_ac : Option Int := Option.none
  ev_charging_current : Option Int := Option.none
  ev_v2l_discharge_limit : Option Int := Option.none
  total_power_consumed : Option ℚ := Option.none
  total_power_regenerated : Option ℚ := Option.none
  power_consumption_30d : Option ℚ := Option.none
  _daily_stats : Option (List DailyDrivingStats) := some []
  _month_trip_info : Option MonthTripInfo := Option.none
  _day_trip_info : Option DayTripInfo := Option.none
  ev_battery_percentage : Option Int := Option.none
  ev_battery_soh_percentage : Option Int := Option.none
  ev_battery_remain : Option Int := Option.none
  ev_battery_capacity : Option Int := Option.none
  ev_battery_is_charging : Option Bool := Option.none
  ev_battery_is_plugged_in : Option Bool := Option.none
  _ev_driving_range : PyVal := .none
  _ev_driving_range_value : PyVal := .none
  _ev_driving_range_unit : PyVal := .none
  _ev_estimated_current_charge_duration : PyVal := .none
  _ev_estimated_current_charge_duration_value : PyVal := .none
  _ev_estimated_current_charge_duration_unit : PyVal := .none
  _ev_estimated_fast_charge_duration : PyVal := .none
  _ev_estimated_fast_charge_duration_value : PyVal := .none
  _ev_estimated_fast_charge_duration_unit : PyVal := .none
  _ev_estimated_portable_charge_duration : PyVal := .none
  _ev_estimated_portable_charge_duration_value : PyVal := .none
  _ev_estimated_portable_charge_duration_unit : PyVal := .none
  _ev_estimated_station_charge_duration : PyVal := .none
  _ev_estimated_station_charge_duration_value : PyVal := .none
  _ev_estimated_station_charge_duration_unit : PyVal := .none
  _ev_target_range_charge_AC : PyVal := .none
  _ev_target_range_charge_AC_value : PyVal := .none
  _ev_target_range_charge_AC_unit : PyVal := .none
  _ev_target_range_charge_DC : PyVal := .none
  _ev_target_range_charge_DC_value : PyVal := .none
  _ev_target_range_charge_DC_unit : PyVal := .none
  ev_first_departure_enabled : Option Bool := Option.none
  ev_second_departure_enabled : Option Bool := Option.none
  ev_first_departure_days : Option (List Int) := Option.none
  ev_second_departure_days : Option (List Int) := Option.none
  ev_first_departure_time : Option Int := Option.none
  ev_second_departure_time : Option Int := Option.none
  ev_first_departure_climate_enabled : Option Bool := Option.none
  ev_second_departure_climate_enabled : Option Bool := Option.none
  _ev_first_departure_climate_temperature : PyVal := .none
  _ev_first_departure_climate_temperature_value : PyVal := .none
  _ev_first_departure_climate_temperature_unit : PyVal := .none
  _ev_second_departure_climate_temperature : PyVal := .none
  _ev_second_departure_climate_temperature_value : PyVal := .none
  _ev_second_departure_climate_temperature_unit : PyVal := .none
  ev_first_departure_climate_defrost : Option Bool := Option.none
  ev_second_departure_climate_defrost : Option Bool := Option.none
  ev_off_peak_start_time : Option Int := Option.none
  ev_off_peak_end_time : Option Int := Option.none
  ev_off_peak_charge_only_enabled : Option Bool := Option.none
  ev_schedule_charge_enabled : Option Bool := Option.none
  _fuel_driving_range : PyVal := .none
  _fuel_driving_range_value : PyVal := .none
  _fuel_driving_range_unit : PyVal := .none
  fuel_level : Option ℚ := Option.none
  fuel_level_is_low : Option Bool := Option.none
  engine_type : Option String := Option.none
  data : Option (List (String × PyVal)) := Option.none

namespace Vehicle

/-- A Vehicle built from the dataclass defaults alone. -/
def init : Vehicle := {}

/-- Getter `daily_stats`. -/
def daily_stats (v : Vehicle) : Option (List DailyDrivingStats) := v._daily_stats

/-- Comparator realising Python `result.sort(reverse=True, key=lambda k: k.date)`:
stable sort, descending by the date (aware datetimes compare by instant);
elements with equal keys keep encounter order. -/
def dailyStatsDescLe (a b : DailyDrivingStats) : Bool :=
  decide (b.date.instant ≤ a.date.instant)

/-- Setter `daily_stats`: sort on decreasing date when the given list is
neither `None` nor empty, otherwise store as given. -/
def set_daily_stats (v : Vehicle) (value : Option (List DailyDrivingStats)) : Vehicle :=
  let result :=
    match value with
    | some l => if 0 < l.length then some (l.mergeSort dailyStatsDescLe) else some l
    | Option.none => Option.none
  { v with _daily_stats := result }

/-- Getter `month_trip_info`. -/
def month_trip_info (v : Vehicle) : Option MonthTripInfo := v._month_trip_info

/-- Comparator realising Python `result.day_list.sort(key=lambda k: k.yyyymmdd)`:
stable sort, ascending by the day-key string. -/
def monthDayListLe (a b : DayTripCounts) : Bool := decide (a.yyyymmdd ≤ b.yyyymmdd)

/-- Setter `month_trip_info`: sort the inner `day_list` on increasing
`yyyymmdd` when the given value is not `None` and the list is non-empty,
otherwise store as given.  The source `hasattr(result, "day_list")` test
always holds for a `MonthTripInfo` value. -/
def set_month_trip_info (v : Vehicle) (value : Option MonthTripInfo) : Vehicle :=
  let result :=
    match value with
    | some m =>
      if 0 < m.day_list.length then
        some { m with day_list := m.day_list.mergeSort monthDayListLe }
      else some m
    | Option.none => Option.none
  { v with _month_trip_info := result }

/-- Getter `day_trip_info`. -/
def day_trip_info (v : Vehicle) : Option DayTripInfo := v._day_trip_info

/-- Comparator realising Python `result.trip_list.sort(reverse=True, key=lambda k: k.hhmmss)`:
stable sort, descending by the time-key string. -/
def dayTripListLe (a b : TripInfo) : Bool := decide (b.hhmmss ≤ a.hhmmss)

/-- Setter `day_trip_info`: sort the inner `trip_list` on descending
`hhmmss` when the given value is not `None` and the list is non-empty,
otherwise store as given.  The source `hasattr(result, "trip_list")` test
always holds for a `DayTripInfo` value. -/
def set_day_trip_info (v : Vehicle) (value : Option DayTripInfo) : Vehicle :=
  let result :=
    match value with
    | some d =>
      if 0 < d.trip_list.length then
        some { d with trip_list := d.trip_list.mergeSort dayTripListLe }
      else some d
    | Option.none => Option.none
  { v with _day_trip_info := result }

/-- Getter `geocode`: the pair (name, address). -/
def geocode (v : Vehicle) : PyVal × PyVal := (v._geocode_name, v._geocode_address)

/-- Setter `geocode`: Python `if value:` — a 2-tuple is truthy, `None` is
falsy and clears both fields. -/
def set_geocode (v : Vehicle) (value : Option (PyVal × PyVal)) : Vehicle :=
  match value with
  | some p => { v with _geocode_name := p.1, _geocode_address := p.2 }
  | Option.none => { v with _geocode_name := .none, _geocode_address := .none }

/-- Getter `total_driving_range`. -/
def total_driving_range (v : Vehicle) : PyVal := v._total_driving_range

/-- Getter `total_driving_range_unit`. -/
def total_driving_range_unit (v : Vehicle) : PyVal := v._total_driving_range_unit

/-- Setter `total_driving_range`. -/
def set_total_driving_range (v : Vehicle) (value : PyVal × PyVal) : Vehicle :=
  { v with _total_driving_range_value := value.1,
           _total_driving_range_unit := value.2,
           _total_driving_range := value.1 }

/-- Getter `next_service_distance`.  The source defines no unit getter
property for this field. -/
def next_service_distance (v : Vehicle) : PyVal := v._next_service_distance

/-- Setter `next_service_distance`. -/
def set_next_service_distance (v : Vehicle) (value : PyVal × PyVal) : Vehicle :=
  { v with _next_service_distance_value := value.1,
           _next_service_distance_unit := value.2,
           _next_service_distance := value.1 }

/-- Getter `last_service_distance`.  The source defines no unit getter
property for this field. -/
def last_service_distance (v : Vehicle) : PyVal := v._last_service_distance

/-- Setter `last_service_distance`. -/
def set_last_service_distance (v : Vehicle) (value : PyVal × PyVal) : Vehicle :=
  { v with _last_service_distance_value := value.1,
           _last_service_distance_unit := value.2,
           _last_service_distance := value.1 }

/-- Getter `last_updated_at`. -/
def last_updated_at (v : Vehicle) : Option ADateTime := v._last_updated_at

/-- Setter `last_updated_at` with the timestamp-regression workaround:
parse the value tolerantly; when both the parsed value and the previous
stored value exist and the new one is earlier, re-apply the UTC offset of
the new value once, adopt the corrected value when it resolves the
regression, and otherwise keep the previous value; in every other case
store the parsed value as-is. -/
def set_last_updated_at (v : Vehicle) (value : DtInput) : Vehicle :=
  let newest_updated_at := get_safe_local_datetime value
  let previous_updated_at := v._last_updated_at
  match newest_updated_at, previous_updated_at with
  | some n, some p =>
    if n.instant < p.instant then
      let n1 := if p.instant ≤ n.corrected.instant then n.corrected else n
      let n2 := if n1.instant < p.instant then p else n1
      { v with _last_updated_at := some n2 }
    else { v with _last_updated_at := some n }
  | newest, _ => { v with _last_updated_at := newest }

/-- Getter `location_latitude`. -/
def location_latitude (v : Vehicle) : PyVal := v._location_latitude

/-- Getter `location_longitude`. -/
def location_longitude (v : Vehicle) : PyVal := v._location_longitude

/-- Getter `location`: returns (longitude, latitude), the reverse of the
setter argument order. -/
def location (v : Vehicle) : PyVal × PyVal := (v._location_longitude, v._location_latitude)

/-- Getter `location_last_updated_at`: the last location datetime, which
can differ from `last_updated_at`. -/
def location_last_updated_at (v : Vehicle) : Option ADateTime := v._location_last_set_time

/-- Setter `location`: takes (latitude, longitude, timestamp), parsing the
timestamp tolerantly. -/
def set_location (v : Vehicle) (value : PyVal × PyVal × DtInput) : Vehicle :=
  { v with _location_latitude := value.1,
           _location_longitude := value.2.1,
           _location_last_set_time := get_safe_local_datetime value.2.2 }

/-- Getter `odometer`. -/
def odometer (v : Vehicle) : PyVal := v._odometer

/-- Getter `odometer_unit`. -/
def odometer_unit (v : Vehicle) : PyVal := v._odometer_unit

/-- Setter `odometer`: the value component is coerced through `get_float`
before being stored into both the raw value field and the current value. -/
def set_odometer (v : Vehicle) (value : PyVal × PyVal) : Vehicle :=
  let float_value := get_float value.1
  { v with _odometer_value := float_value,
           _odometer_unit := value.2,
           _odometer := float_value }

/-- Getter `air_temperature`. -/
def air_temperature (v : Vehicle) : PyVal := v._air_temperature

/-- Setter `air_temperature`: the raw value and unit fields are stored
verbatim; the current value is emptied when the value equals the sentinel
string OFF. -/
def set_air_temperature (v : Vehicle) (value : PyVal × PyVal) : Vehicle :=
  { v with _air_temperature_value := value.1,
           _air_temperature_unit := value.2,
           _air_temperature := if value.1 ≠ PyVal.str "OFF" then value.1 else .none }

/-- Getter `ev_driving_range`. -/
def ev_driving_range (v : Vehicle) : PyVal := v._ev_driving_range

/-- Getter `ev_driving_range_unit`. -/
def ev_driving_range_unit (v : Vehicle) : PyVal := v._ev_driving_range_unit

/-- Setter `ev_driving_range`. -/
def set_ev_driving_range (v : Vehicle) (value : PyVal × PyVal) : Vehicle :=
  { v with _ev_driving_range_value := value.1,
           _ev_driving_range_unit := value.2,
           _ev_driving_range := value.1 }

/-- Getter `ev_estimated_current_charge_duration`.  The source defines no
unit getter property for this field. -/
def ev_estimated_current_charge_duration (v : Vehicle) : PyVal :=
  v._ev_estimated_current_charge_duration

/-- Setter `ev_estimated_current_charge_duration`. -/
def set_ev_estimated_current_charge_duration (v : Vehicle) (value : PyVal × PyVal) : Vehicle :=
  { v with _ev_estimated_current_charge_duration_value := value.1,
           _ev_estimated_current_charge_duration_unit := value.2,
           _ev_estimated_current_charge_duration := value.1 }

/-- Getter `ev_estimated_fast_charge_duration`.  The source defines no
unit getter property for this field. -/
def ev_estimated_fast_charge_duration (v : Vehicle) : PyVal :=
  v._ev_estimated_fast_charge_duration

/-- Setter `ev_estimated_fast_charge_duration`. -/
def set_ev_estimated_fast_charge_duration (v : Vehicle) (value : PyVal × PyVal) : Vehicle :=
  { v with _ev_estimated_fast_charge_duration_value := value.1,
           _ev_estimated_fast_charge_duration_unit := value.2,
           _ev_estimated_fast_charge_duration := value.1 }

/-- Getter `ev_estimated_portable_charge_duration`.  The source defines no
unit getter property for this field. -/
def ev_estimated_portable_charge_duration (v : Vehicle) : PyVal :=
  v._ev_estimated_portable_charge_duration

/-- Setter `ev_estimated_portable_charge_duration`. -/
def set_ev_estimated_portable_charge_duration (v : Vehicle) (value : PyVal × PyVal) : Vehicle :=
  { v with _ev_estimated_portable_charge_duration_value := value.1,
           _ev_estimated_portable_charge_duration_unit := value.2,
           _ev_estimated_portable_charge_duration := value.1 }

/-- Getter `ev_estimated_station_charge_duration`.  The source defines no
unit getter property for this field. -/
def ev_estimated_station_charge_duration (v : Vehicle) : PyVal :=
  v._ev_estimated_station_charge_duration

/-- Setter `ev_estimated_station_charge_duration`. -/
def set_ev_estimated_station_charge_duration (v : Vehicle) (value : PyVal × PyVal) : Vehicle :=
  { v with _ev_estimated_station_charge_duration_value := value.1,
           _ev_estimated_station_charge_duration_unit := value.2,
           _ev_estimated_station_charge_duration := value.1 }

/-- Getter `ev_target_range_charge_AC`. -/
def ev_target_range_charge_AC (v : Vehicle) : PyVal := v._ev_target_range_charge_AC

/-- Getter `ev_target_range_charge_AC_unit`. -/
def ev_target_range_charge_AC_unit (v : Vehicle) : PyVal := v._ev_target_range_charge_AC_unit

/-- Setter `ev_target_range_charge_AC`. -/
def set_ev_target_range_charge_AC (v : Vehicle) (value : PyVal × PyVal) : Vehicle :=
  { v with _ev_target_range_charge_AC_value := value.1,
           _ev_target_range_charge_AC_unit := value.2,
           _ev_target_range_charge_AC := value.1 }

/-- Getter `ev_target_range_charge_DC`. -/
def ev_target_range_charge_DC (v : Vehicle) : PyVal := v._ev_target_range_charge_DC

/-- Getter `ev_target_range_charge_DC_unit`. -/
def ev_target_range_charge_DC_unit (v : Vehicle) : PyVal := v._ev_target_range_charge_DC_unit

/-- Setter `ev_target_range_charge_DC`. -/
def set_ev_target_range_charge_DC (v : Vehicle) (value : PyVal × PyVal) : Vehicle :=
  { v with _ev_target_range_charge_DC_value := value.1,
           _ev_target_range_charge_DC_unit := value.2,
           _ev_target_range_charge_DC := value.1 }

/-- Getter `ev_first_departure_climate_temperature`. -/
def ev_first_departure_climate_temperature (v : Vehicle) : PyVal :=
  v._ev_first_departure_climate_temperature

/-- Getter `ev_first_departure_climate_temperature_unit`. -/
def ev_first_departure_climate_temperature_unit (v : Vehicle) : PyVal :=
  v._ev_first_departure_climate_temperature_unit

/-- Setter `ev_first_departure_climate_temperature`. -/
def set_ev_first_departure_climate_temperature (v : Vehicle) (value : PyVal × PyVal) : Vehicle :=
  { v with _ev_first_departure_climate_temperature_value := value.1,
           _ev_first_departure_climate_temperature_unit := value.2,
           _ev_first_departure_climate_temperature := value.1 }

/-- Getter `ev_second_departure_climate_temperature`. -/
def ev_second_departure_climate_temperature (v : Vehicle) : PyVal :=
  v._ev_second_departure_climate_temperature

/-- Getter `ev_second_departure_climate_temperature_unit`. -/
def ev_second_departure_climate_temperature_unit (v : Vehicle) : PyVal :=
  v._ev_second_departure_climate_temperature_unit

/-- Setter `ev_second_departure_climate_temperature`. -/
def set_ev_second_departure_climate_temperature (v : Vehicle) (value : PyVal × PyVal) : Vehicle :=
  { v with _ev_second_departure_climate_temperature_value := value.1,
           _ev_second_departure_climate_temperature_unit := value.2,
           _ev_second_departure_climate_temperature := value.1 }

/-- Getter `fuel_driving_range`.  The source defines no unit getter
property for this field. -/
def fuel_driving_range (v : Vehicle) : PyVal := v._fuel_driving_range

/-- Setter `fuel_driving_range`. -/
def set_fuel_driving_range (v : Vehicle) (value : PyVal × PyVal) : Vehicle :=
  { v with _fuel_driving_range_value := value.1,
           _fuel_driving_range_unit := value.2,
           _fuel_driving_range := value.1 }

end Vehicle

/-- C1: for the `last_updated_at` setter, when both the parsed incoming
timestamp and a previously stored timestamp exist and the incoming one is
earlier, the setter computes corrected = incoming plus the UTC offset of
the incoming value; if corrected is at least the previous value the stored
value becomes corrected, otherwise the previous timestamp is kept; and
when no previous value exists the parsed incoming value is stored as-is. -/
theorem C1_last_updated_at_correction (v : Vehicle) (inc p : ADateTime) :
    (v._last_updated_at = some p → inc.instant < p.instant →
      (v.set_last_updated_at (.parsed inc)).last_updated_at =
        some (if p.instant ≤ inc.corrected.instant then inc.corrected else p))
    ∧ (v._last_updated_at = Option.none →
      (v.set_last_updated_at (.parsed inc)).last_updated_at = some inc) := by
  constructor
  · intro hp hlt
    simp only [Vehicle.set_last_updated_at, Vehicle.last_updated_at,
      get_safe_local_datetime, hp, hlt, if_true, if_pos hlt]
    split_ifs with h1 h2 <;>
      simp_all [ADateTime.instant, ADateTime.corrected, ADateTime.addMinutes,
        ADateTime.utcoffset]
    omega
  · intro hp
    simp only [Vehicle.set_last_updated_at, Vehicle.last_updated_at,
      get_safe_local_datetime, hp]

/-- C1 witness: with previous wall 590 offset 60 (instant 530) and incoming
wall 540 offset 60 (instant 480), the corrected value wall 600 offset 60
(instant 540) resolves the regression and is stored; and on a vehicle with
no previous value the incoming value is stored as-is. -/
theorem C1_last_updated_at_correction_witness :
    (({ Vehicle.init with _last_updated_at := some ⟨590, 60⟩ } : Vehicle).set_last_updated_at
        (.parsed ⟨540, 60⟩)).last_updated_at = some ⟨600, 60⟩
    ∧ (Vehicle.init.set_last_updated_at (.parsed ⟨540, 60⟩)).last_updated_at
        = some ⟨540, 60⟩ := by
  constructor
  · have h := (C1_last_updated_at_correction
      { Vehicle.init with _last_updated_at := some ⟨590, 60⟩ } ⟨540, 60⟩ ⟨590, 60⟩).1
      rfl (by decide)
    rw [if_pos (by decide)] at h
    exact h
  · exact (C1_last_updated_at_correction Vehicle.init ⟨540, 60⟩ ⟨590, 60⟩).2 rfl

/-- C2 counterexample: the exception claimed for `last_updated_at` never
occurs — there is no assignment with an existing previous timestamp and an
earlier parseable incoming value for which the setter stores the earlier
incoming value.  When both values exist the setter stores either the
corrected value (whose instant is at least the previous instant) or the
previous value itself, both strictly later than the incoming instant. -/
theorem C2_counterexample : ¬ ∃ (v : Vehicle) (p inc : ADateTime),
    v._last_updated_at = some p ∧ inc.instant < p.instant ∧
    (v.set_last_updated_at (.parsed inc)).last_updated_at = some inc := by
  rintro ⟨v, p, inc, hp, hlt, hstore⟩
  simp only [Vehicle.set_last_updated_at, Vehicle.last_updated_at,
    get_safe_local_datetime, hp, if_pos hlt, Option.some.injEq] at hstore
  split_ifs at hstore with h1 h2 <;>
    (have e := congrArg ADateTime.instant hstore
     simp only [ADateTime.instant, ADateTime.corrected, ADateTime.addMinutes,
       ADateTime.utcoffset] at *
     omega)

/-- C2 amended: when both the parsed incoming timestamp and a previously
stored timestamp exist, the stored `last_updated_at` never regresses — the
instant of the stored result is always at least the previous instant, so
an earlier incoming value is never accepted while a previous value exists
(an earlier value can only be accepted as-is when the previous value is
empty). -/
theorem C2_no_regression_when_previous_exists (v : Vehicle) (p inc d : ADateTime)
    (hp : v._last_updated_at = some p)
    (hd : (v.set_last_updated_at (.parsed inc)).last_updated_at = some d) :
    p.instant ≤ d.instant := by
  by_cases hlt : inc.instant < p.instant
  · simp only [Vehicle.set_last_updated_at, Vehicle.last_updated_at,
      get_safe_local_datetime, hp, if_pos hlt, Option.some.injEq] at hd
    split_ifs at hd with h1 h2 <;>
      (have e := congrArg ADateTime.instant hd
       simp only [ADateTime.instant, ADateTime.corrected, ADateTime.addMinutes,
         ADateTime.utcoffset] at *
       omega)
  · simp only [Vehicle.set_last_updated_at, Vehicle.last_updated_at,
      get_safe_local_datetime, hp, if_neg hlt, Option.some.injEq] at hd
    have e := congrArg ADateTime.instant hd
    simp only [ADateTime.instant] at *
    omega

/-- C2 witness: previous wall 590 offset 60 (instant 530), incoming wall
540 offset 60 (instant 480); the setter stores wall 600 offset 60, whose
instant 540 is at least the previous instant 530. -/
theorem C2_no_regression_when_previous_exists_witness :
    ({ Vehicle.init with _last_updated_at := some ⟨590, 60⟩ } : Vehicle)._last_updated_at
        = some ⟨590, 60⟩
    ∧ (({ Vehicle.init with _last_updated_at := some ⟨590, 60⟩ } : Vehicle).set_last_updated_at
        (.parsed ⟨540, 60⟩)).last_updated_at = some ⟨600, 60⟩
    ∧ (⟨590, 60⟩ : ADateTime).instant ≤ (⟨600, 60⟩ : ADateTime).instant := by
  refine ⟨rfl, by decide, ?_⟩
  exact C2_no_regression_when_previous_exists
    { Vehicle.init with _last_updated_at := some ⟨590, 60⟩ } ⟨590, 60⟩ ⟨540, 60⟩ ⟨600, 60⟩
    rfl (by decide)

/-- C10: when the stored `last_updated_at` exists and the incoming value
does not parse (missing or unparseable), the setter overwrites the stored
timestamp with empty — the stale-update guard only runs when both the
parsed incoming value and the previous value exist. -/
theorem C10_unparseable_overwrites_with_empty (v : Vehicle) (p : ADateTime) (inp : DtInput)
    (hp : v._last_updated_at = some p)
    (hparse : get_safe_local_datetime inp = Option.none) :
    (v.set_last_updated_at inp).last_updated_at = Option.none := by
  simp only [Vehicle.set_last_updated_at, Vehicle.last_updated_at, hp, hparse]

/-- C10 witness: a vehicle holding wall 590 offset 60, assigned an
unparseable string, ends with an empty `last_updated_at`. -/
theorem C10_unparseable_overwrites_with_empty_witness :
    ({ Vehicle.init with _last_updated_at := some ⟨590, 60⟩ } : Vehicle)._last_updated_at
        = some ⟨590, 60⟩
    ∧ get_safe_local_datetime (.unparseable "not a date") = Option.none
    ∧ (({ Vehicle.init with _last_updated_at := some ⟨590, 60⟩ } : Vehicle).set_last_updated_at
        (.unparseable "not a date")).last_updated_at = Option.none := by
  refine ⟨rfl, rfl, ?_⟩
  exact C10_unparseable_overwrites_with_empty
    { Vehicle.init with _last_updated_at := some ⟨590, 60⟩ } ⟨590, 60⟩
    (.unparseable "not a date") rfl rfl

/-- C3: for every value+unit setter other than odometer and
air_temperature, after assigning the pair (val, u) the value getter
returns exactly val (stored verbatim, with no coercion or validation) and
the unit is stored exactly as u (read through the unit getter where the
source defines one — total_driving_range, ev_driving_range,
ev_target_range_charge_AC, ev_target_range_charge_DC and the two
departure climate temperatures — and through the stored unit field for
the setters without a unit getter property). -/
theorem C3_value_unit_setters_verbatim (v : Vehicle) (val u : PyVal) :
    ((v.set_total_driving_range (val, u)).total_driving_range = val
      ∧ (v.set_total_driving_range (val, u)).total_driving_range_unit = u)
    ∧ ((v.set_next_service_distance (val, u)).next_service_distance = val
      ∧ (v.set_next_service_distance (val, u))._next_service_distance_unit = u)
    ∧ ((v.set_last_service_distance (val, u)).last_service_distance = val
      ∧ (v.set_last_service_distance (val, u))._last_service_distance_unit = u)
    ∧ ((v.set_ev_driving_range (val, u)).ev_driving_range = val
      ∧ (v.set_ev_driving_range (val, u)).ev_driving_range_unit = u)
    ∧ ((v.set_ev_estimated_current_charge_duration (val, u)).ev_estimated_current_charge_duration = val
      ∧ (v.set_ev_estimated_current_charge_duration (val, u))._ev_estimated_current_charge_duration_unit = u)
    ∧ ((v.set_ev_estimated_fast_charge_duration (val, u)).ev_estimated_fast_charge_duration = val
      ∧ (v.set_ev_estimated_fast_charge_duration (val, u))._ev_estimated_fast_charge_duration_unit = u)
    ∧ ((v.set_ev_estimated_portable_charge_duration (val, u)).ev_estimated_portable_charge_duration = val
      ∧ (v.set_ev_estimated_portable_charge_duration (val, u))._ev_estimated_portable_charge_duration_unit = u)
    ∧ ((v.set_ev_estimated_station_charge_duration (val, u)).ev_estimated_station_charge_duration = val
      ∧ (v.set_ev_estimated_station_charge_duration (val, u))._ev_estimated_station_charge_duration_unit = u)
    ∧ ((v.set_ev_target_range_charge_AC (val, u)).ev_target_range_charge_AC = val
      ∧ (v.set_ev_target_range_charge_AC (val, u)).ev_target_range_charge_AC_unit = u)
    ∧ ((v.set_ev_target_range_charge_DC (val, u)).ev_target_range_charge_DC = val
      ∧ (v.set_ev_target_range_charge_DC (val, u)).ev_target_range_charge_DC_unit = u)
    ∧ ((v.set_ev_first_departure_climate_temperature (val, u)).ev_first_departure_climate_temperature = val
      ∧ (v.set_ev_first_departure_climate_temperature (val, u)).ev_first_departure_climate_temperature_unit = u)
    ∧ ((v.set_ev_second_departure_climate_temperature (val, u)).ev_second_departure_climate_temperature = val
      ∧ (v.set_ev_second_departure_climate_temperature (val, u)).ev_second_departure_climate_temperature_unit = u)
    ∧ ((v.set_fuel_driving_range (val, u)).fuel_driving_range = val
      ∧ (v.set_fuel_driving_range (val, u))._fuel_driving_range_unit = u) :=
  ⟨⟨rfl, rfl⟩, ⟨rfl, rfl⟩, ⟨rfl, rfl⟩, ⟨rfl, rfl⟩, ⟨rfl, rfl⟩, ⟨rfl, rfl⟩, ⟨rfl, rfl⟩,
    ⟨rfl, rfl⟩, ⟨rfl, rfl⟩, ⟨rfl, rfl⟩, ⟨rfl, rfl⟩, ⟨rfl, rfl⟩, ⟨rfl, rfl⟩⟩

/-- C4: for the air_temperature setter, assigning the sentinel string OFF
makes the current value empty while the raw value field stores the
literal OFF and the unit field stores the assigned unit; any other value
is stored verbatim as in an ordinary value+unit setter. -/
theorem C4_air_temperature_sentinel (v : Vehicle) (val u : PyVal) :
    ((v.set_air_temperature (.str "OFF", u)).air_temperature = .none
      ∧ (v.set_air_temperature (.str "OFF", u))._air_temperature_value = .str "OFF"
      ∧ (v.set_air_temperature (.str "OFF", u))._air_temperature_unit = u)
    ∧ (val ≠ .str "OFF" →
      (v.set_air_temperature (val, u)).air_temperature = val
        ∧ (v.set_air_temperature (val, u))._air_temperature_value = val
        ∧ (v.set_air_temperature (val, u))._air_temperature_unit = u) := by
  constructor
  · refine ⟨?_, rfl, rfl⟩
    simp [Vehicle.set_air_temperature, Vehicle.air_temperature]
  · intro h
    refine ⟨?_, rfl, rfl⟩
    simp [Vehicle.set_air_temperature, Vehicle.air_temperature, if_pos h]

/-- C4 witness: setting (OFF, C) empties the current value while keeping
the raw OFF and unit C; setting (21, C) stores 21 verbatim. -/
theorem C4_air_temperature_sentinel_witness :
    ((Vehicle.init.set_air_temperature (.str "OFF", .str "C")).air_temperature = .none
      ∧ (Vehicle.init.set_air_temperature (.str "OFF", .str "C"))._air_temperature_value
          = .str "OFF"
      ∧ (Vehicle.init.set_air_temperature (.str "OFF", .str "C"))._air_temperature_unit
          = .str "C")
    ∧ (PyVal.num 21 ≠ PyVal.str "OFF"
      ∧ (Vehicle.init.set_air_temperature (.num 21, .str "C")).air_temperature = .num 21) := by
  refine ⟨(C4_air_temperature_sentinel Vehicle.init (.num 21) (.str "C")).1, by decide, ?_⟩
  exact ((C4_air_temperature_sentinel Vehicle.init (.num 21) (.str "C")).2 (by decide)).1

/-- C5: the odometer setter coerces its value component through the
tolerant float parser before storage; assigning the string 123.4 and
assigning the number 123.4 produce identical stored state, and both yield
an odometer of the rational 617/5 (that is, 123.4) with unit km. -/
theorem C5_odometer_float_coercion (v : Vehicle) :
    v.set_odometer (.str "123.4", .str "km") = v.set_odometer (.num (617 / 5), .str "km")
    ∧ (v.set_odometer (.str "123.4", .str "km")).odometer = .num (617 / 5)
    ∧ (v.set_odometer (.str "123.4", .str "km")).odometer_unit = .str "km" := by
  have hp : parseDecimal "123.4" = some (mkRat 1234 10) := rfl
  have hq : (mkRat 1234 10 : ℚ) = 617 / 5 := by
    rw [Rat.mkRat_eq_div]
    norm_num
  have h : get_float (.str "123.4") = .num (617 / 5) := by
    simp only [get_float, hp, hq]
  refine ⟨?_, ?_, rfl⟩
  · simp only [Vehicle.set_odometer]
    rw [h]
    simp only [get_float]
  · simp only [Vehicle.set_odometer, Vehicle.odometer]
    exact h

/-- C7: the location setter takes (latitude, longitude, timestamp),
storing latitude and longitude directly and the timestamp after tolerant
parsing; the location getter returns the reversed pair (longitude,
latitude) and location_last_updated_at returns the parsed timestamp; in
particular setting (1.0, 2.0, parsed epoch) makes the getter return
(2.0, 1.0). -/
theorem C7_location_reversed_pair (v : Vehicle) (lat lon : PyVal) (t : DtInput) :
    (v.set_location (lat, lon, t))._location_latitude = lat
    ∧ (v.set_location (lat, lon, t))._location_longitude = lon
    ∧ (v.set_location (lat, lon, t)).location = (lon, lat)
    ∧ (v.set_location (lat, lon, t)).location_last_updated_at = get_safe_local_datetime t
    ∧ (v.set_location (.num 1, .num 2, .parsed ⟨0, 0⟩)).location = (.num 2, .num 1)
    ∧ (v.set_location (.num 1, .num 2, .parsed ⟨0, 0⟩)).location_last_updated_at
        = some ⟨0, 0⟩ :=
  ⟨rfl, rfl, rfl, rfl, rfl, rfl⟩

/-- C9: assigning None to geocode clears both the stored name and address
to empty; assigning a pair (name, address) stores both components and the
geocode getter returns exactly that pair. -/
theorem C9_geocode (v : Vehicle) (gname gaddr : PyVal) :
    ((v.set_geocode Option.none)._geocode_name = .none
      ∧ (v.set_geocode Option.none)._geocode_address = .none)
    ∧ ((v.set_geocode (some (gname, gaddr)))._geocode_name = gname
      ∧ (v.set_geocode (some (gname, gaddr)))._geocode_address = gaddr
      ∧ (v.set_geocode (some (gname, gaddr))).geocode = (gname, gaddr)) :=
  ⟨⟨rfl, rfl⟩, rfl, rfl, rfl⟩

/-- C8 counterexample: the claim that the odometer raw value field retains
the verbatim first tuple element before float coercion is false — after
assigning the pair (string 123.4, km) on a fresh vehicle, the raw value
field holds the coerced number, not the original string. -/
theorem C8_counterexample :
    (Vehicle.init.set_odometer (.str "123.4", .str "km"))._odometer_value
      ≠ .str "123.4" := by
  have hp : parseDecimal "123.4" = some (mkRat 1234 10) := rfl
  simp only [Vehicle.set_odometer, get_float, hp]
  exact fun hcon => PyVal.noConfusion hcon

/-- C8 amended: for every value+unit setter except odometer the raw value
field retains the originally assigned first tuple element verbatim (for
air_temperature including the literal OFF sentinel), while for odometer
the raw value field stores the float-coerced value, identical to the
stored current value, rather than the verbatim input. -/
theorem C8_raw_value_fields (v : Vehicle) (val u : PyVal) :
    (v.set_total_driving_range (val, u))._total_driving_range_value = val
    ∧ (v.set_next_service_distance (val, u))._next_service_distance_value = val
    ∧ (v.set_last_service_distance (val, u))._last_service_distance_value = val
    ∧ (v.set_ev_driving_range (val, u))._ev_driving_range_value = val
    ∧ (v.set_ev_estimated_current_charge_duration (val, u))._ev_estimated_current_charge_duration_value = val
    ∧ (v.set_ev_estimated_fast_charge_duration (val, u))._ev_estimated_fast_charge_duration_value = val
    ∧ (v.set_ev_estimated_portable_charge_duration (val, u))._ev_estimated_portable_charge_duration_value = val
    ∧ (v.set_ev_estimated_station_charge_duration (val, u))._ev_estimated_station_charge_duration_value = val
    ∧ (v.set_ev_target_range_charge_AC (val, u))._ev_target_range_charge_AC_value = val
    ∧ (v.set_ev_target_range_charge_DC (val, u))._ev_target_range_charge_DC_value = val
    ∧ (v.set_ev_first_departure_climate_temperature (val, u))._ev_first_departure_climate_temperature_value = val
    ∧ (v.set_ev_second_departure_climate_temperature (val, u))._ev_second_departure_climate_temperature_value = val
    ∧ (v.set_fuel_driving_range (val, u))._fuel_driving_range_value = val
    ∧ (v.set_air_temperature (val, u))._air_temperature_value = val
    ∧ (v.set_odometer (val, u))._odometer_value = get_float val
    ∧ (v.set_odometer (val, u))._odometer_value = (v.set_odometer (val, u)).odometer :=
  ⟨rfl, rfl, rfl, rfl, rfl, rfl, rfl, rfl, rfl, rfl, rfl, rfl, rfl, rfl, rfl, rfl⟩

/-- C6: each sorted-collection setter sorts on non-empty assignment and
leaves empty input untouched — a non-empty daily_stats list is stored
sorted in descending date order, a non-empty month_trip_info day_list is
stored sorted in ascending yyyymmdd order, a non-empty day_trip_info
trip_list is stored sorted in descending hhmmss order, and an empty or
absent value is stored as given with no sorting performed. -/
theorem C6_sorted_collection_setters (v : Vehicle)
    (a : DailyDrivingStats) (l : List DailyDrivingStats)
    (b : DayTripCounts) (bs : List DayTripCounts) (m : MonthTripInfo)
    (c : TripInfo) (cs : List TripInfo) (d : DayTripInfo) :
    ((v.set_daily_stats (some (a :: l))).daily_stats
        = some ((a :: l).mergeSort Vehicle.dailyStatsDescLe)
      ∧ ((a :: l).mergeSort Vehicle.dailyStatsDescLe).Pairwise
          (fun x y => Vehicle.dailyStatsDescLe x y = true))
    ∧ ((v.set_month_trip_info (some { m with day_list := b :: bs })).month_trip_info
        = some { m with day_list := (b :: bs).mergeSort Vehicle.monthDayListLe }
      ∧ ((b :: bs).mergeSort Vehicle.monthDayListLe).Pairwise
          (fun x y => Vehicle.monthDayListLe x y = true))
    ∧ ((v.set_day_trip_info (some { d with trip_list := c :: cs })).day_trip_info
        = some { d with trip_list := (c :: cs).mergeSort Vehicle.dayTripListLe }
      ∧ ((c :: cs).mergeSort Vehicle.dayTripListLe).Pairwise
          (fun x y => Vehicle.dayTripListLe x y = true))
    ∧ (v.set_daily_stats (some [])).daily_stats = some []
    ∧ (v.set_daily_stats Option.none).daily_stats = Option.none
    ∧ (v.set_month_trip_info (some { m with day_list := [] })).month_trip_info
        = some { m with day_list := [] }
    ∧ (v.set_month_trip_info Option.none).month_trip_info = Option.none
    ∧ (v.set_day_trip_info (some { d with trip_list := [] })).day_trip_info
        = some { d with trip_list := [] }
    ∧ (v.set_day_trip_info Option.none).day_trip_info = Option.none := by
  refine ⟨⟨by simp [Vehicle.set_daily_stats, Vehicle.daily_stats], ?_⟩,
    ⟨by simp [Vehicle.set_month_trip_info, Vehicle.month_trip_info], ?_⟩,
    ⟨by simp [Vehicle.set_day_trip_info, Vehicle.day_trip_info], ?_⟩,
    rfl, rfl, rfl, rfl, rfl, rfl⟩
  · exact List.sorted_mergeSort
      (by
        intro x y z h1 h2
        simp only [Vehicle.dailyStatsDescLe, decide_eq_true_eq] at *
        omega)
      (by
        intro x y
        simp only [Vehicle.dailyStatsDescLe, Bool.or_eq_true, decide_eq_true_eq]
        omega)
      (a :: l)
  · exact List.sorted_mergeSort
      (by
        intro x y z h1 h2
        simp only [Vehicle.monthDayListLe, decide_eq_true_eq] at *
        exact le_trans h1 h2)
      (by
        intro x y
        simp only [Vehicle.monthDayListLe, Bool.or_eq_true, decide_eq_true_eq]
        exact le_total x.yyyymmdd y.yyyymmdd)
      (b :: bs)
  · exact List.sorted_mergeSort
      (by
        intro x y z h1 h2
        simp only [Vehicle.dayTripListLe, decide_eq_true_eq] at *
        exact le_trans h2 h1)
      (by
        intro x y
        simp only [Vehicle.dayTripListLe, Bool.or_eq_true, decide_eq_true_eq]
        exact (le_total y.hhmmss x.hhmmss).imp id id)
      (c :: cs)
